import Mathlib

/-!
Verification of `src/job_alert.py`, a daily job-alert script.

The script is a single linear pipeline: a time gate (local hour equals a
configured target hour), an HTTP fetch of a job feed, a keyword filter over
job titles, and an SMTP notification.  We embed the pure data transformations
directly (Python strings become `List Char`, so that Python's `in`, `strip`,
`lower`, `split` are modelled faithfully), and we embed the effectful skeleton
of `main` as a function from an abstract `World` (the outcome of the two
network interactions and the current local hour) to a `RunResult` recording
the exit code, which network calls were attempted, and the composed email
body.
-/

namespace JobAlert

/-- Python strings, modelled as lists of characters. -/
abbrev Str := List Char

/-- Python `s.lower()`: lowercase every character. -/
def pyLower (s : Str) : Str := s.map Char.toLower

/-- Python `s.strip()`: drop whitespace from both ends of the string. -/
def pyStrip (s : Str) : Str :=
  ((s.dropWhile Char.isWhitespace).reverse.dropWhile Char.isWhitespace).reverse

/-- Python truthiness of `os.environ.get(...)`: `None` and the empty string
are falsy, any non-empty string is truthy. -/
def pyTruthy : Option Str → Bool
  | none => false
  | some s => !s.isEmpty

/-- Python `a or b` where `a` is an optional string (e.g. `j.get("url")`) and
`b` is the already-evaluated fallback: returns `a`'s value when it is truthy
(present and non-empty), otherwise `b`. -/
def pyOrElse (a : Option Str) (b : Str) : Str :=
  match a with
  | some s => if s.isEmpty then b else s
  | none => b

/-- Line 25-28 of `job_alert.py`:
`KEYWORDS = [k.strip().lower() for k in raw.split(",") if k.strip()]` —
split the raw environment string on commas, keep the pieces whose stripped
form is non-empty, and for each kept piece take its stripped, lowercased
form. -/
def parseKeywords (raw : Str) : List Str :=
  ((raw.splitOn ',').filter (fun k => !(pyStrip k).isEmpty)).map
    (fun k => pyLower (pyStrip k))

/-- Python `kw in hay` for strings: `kw` occurs as a contiguous substring of
`hay`.  Checks whether `kw` is a prefix at each position of `hay`; the empty
string is contained in every string. -/
def strContains (kw : Str) : Str → Bool
  | [] => kw.isEmpty
  | c :: t => kw.isPrefixOf (c :: t) || strContains kw t

/-- Line 54 of `job_alert.py`:
`any(kw in title.lower() for kw in KEYWORDS)`. -/
def titleMatches (keywords : List Str) (title : Str) : Bool :=
  keywords.any (fun kw => strContains kw (pyLower title))

/-- One raw feed entry: a JSON object whose relevant fields may each be
absent (`none`) or present with a string value. -/
structure RawJob where
  position : Option Str := none
  title : Option Str := none
  company : Option Str := none
  url : Option Str := none
  applyUrl : Option Str := none

/-- A normalized job posting: the record with title, company and link fields
appended to `results` in `fetch_jobs`. -/
structure Posting where
  title : Str
  company : Str
  link : Str
deriving DecidableEq

/-- Lines 51-53 of `job_alert.py`: normalization of one raw feed entry:
`title = (j.get("position") or j.get("title") or "").strip()`,
`company = j.get("company","").strip()`,
`link = j.get("url") or j.get("apply_url") or ""`. -/
def normalizeJob (j : RawJob) : Posting :=
  { title := pyStrip (pyOrElse j.position (pyOrElse j.title []))
    company := pyStrip (j.company.getD [])
    link := pyOrElse j.url (pyOrElse j.applyUrl []) }

/-- Outcome of the single HTTP GET in `fetch_jobs`: either one of the
failures caught by its `try` block (a network error from `requests.get`, a
non-success HTTP status raised by `resp.raise_for_status()`, or a parse
failure in `resp.json()`), or a successfully parsed raw feed sequence. -/
inductive FetchOutcome where
  | fetchError
  | ok (jobs : List RawJob)

/-- Lines 49-56 of `job_alert.py`: the `for j in jobs[1:]` loop body applied
to a candidate list: normalize each entry and keep it when its title matches
a keyword. -/
def filterJobs (keywords : List Str) : List RawJob → List Posting
  | [] => []
  | j :: rest =>
    let p := normalizeJob j
    if titleMatches keywords p.title then p :: filterJobs keywords rest
    else filterJobs keywords rest

/-- Function `fetch_jobs`: on any caught fetch failure return `[]` (lines 45-47);
otherwise iterate over `jobs[1:]`, i.e. drop the first raw entry
unconditionally, and filter (lines 49-56). -/
def fetch_jobs (keywords : List Str) : FetchOutcome → List Posting
  | .fetchError => []
  | .ok jobs => filterJobs keywords (jobs.drop 1)

/-- The literal body used when no jobs matched (line 61). -/
def noMatchBody : Str := ("No matching jobs found today.").data

/-- Line 65 of `job_alert.py`: one posting rendered as the block
`{title} at {company}`, a newline, `Apply: {link}`, and a trailing newline. -/
def formatJob (p : Posting) : Str :=
  p.title ++ (" at ").data ++ p.company ++ ("\nApply: ").data ++ p.link
    ++ ("\n").data

/-- Lines 60-66 of `job_alert.py`: the email body — the fixed sentence when
the filtered list is empty, otherwise `"\n".join(parts)` over the formatted
blocks. -/
def emailBody (jobs : List Posting) : Str :=
  if jobs.isEmpty then noMatchBody
  else (("\n").data).intercalate (jobs.map formatJob)

/-- Process configuration read from the environment at startup:
`SENDER_EMAIL` and `SENDER_PASSWORD` (each possibly absent), `TARGET_HOUR`
(an integer), and the parsed `KEYWORDS` list. -/
structure Config where
  senderEmail : Option Str
  senderPassword : Option Str
  targetHour : Int
  keywords : List Str

/-- The parts of the outside world one run observes: the current local hour
(`datetime.hour`, always in `0‥23`), the outcome of the HTTP fetch were it
attempted, and whether the SMTP send would succeed were it attempted. -/
structure World where
  localHour : Fin 24
  fetch : FetchOutcome
  smtpOk : Bool

/-- Lines 35-38 of `job_alert.py`: `is_target_time` returns
`now.hour == TARGET_HOUR`. -/
def is_target_time (cfg : Config) (w : World) : Bool :=
  ((w.localHour : Nat) : Int) == cfg.targetHour

/-- Observable result of one run of `main`: the process exit code, whether
the HTTP fetch was attempted, whether the SMTP session was attempted, the
email body composed by `send_email` (when reached), and whether the email
was actually delivered. -/
structure RunResult where
  exitCode : Nat
  httpAttempted : Bool
  smtpAttempted : Bool
  body : Option Str
  delivered : Bool
deriving DecidableEq

/-- Lines 78-86 of `job_alert.py` (`main`): exit 1 before any network I/O
when either secret is missing or empty; return (exit 0) without any network
call when the time gate does not match; otherwise run `fetch_jobs` and
`send_email`.  `send_email` composes the body and attempts the SMTP
session; a send failure is caught (lines 75-76), so it changes nothing
observable but `delivered`, and `main` falls off the end (exit 0). -/
def main (cfg : Config) (w : World) : RunResult :=
  if !(pyTruthy cfg.senderEmail && pyTruthy cfg.senderPassword) then
    { exitCode := 1, httpAttempted := false, smtpAttempted := false,
      body := none, delivered := false }
  else if !is_target_time cfg w then
    { exitCode := 0, httpAttempted := false, smtpAttempted := false,
      body := none, delivered := false }
  else
    { exitCode := 0, httpAttempted := true, smtpAttempted := true,
      body := some (emailBody (fetch_jobs cfg.keywords w.fetch)),
      delivered := w.smtpOk }

/-! ### Substring-search correctness -/

/-- Correctness of `strContains`: it is true exactly when the haystack
decomposes as `p ++ kw ++ q`. -/
theorem strContains_iff (kw : Str) :
    ∀ hay : Str, strContains kw hay = true ↔ ∃ p q, hay = p ++ kw ++ q := by
  intro hay
  induction hay with
  | nil =>
    simp only [strContains, List.isEmpty_iff]
    constructor
    · rintro rfl; exact ⟨[], [], rfl⟩
    · rintro ⟨p, q, hpq⟩
      rcases List.append_eq_nil.mp (List.append_eq_nil.mp hpq.symm).1 with ⟨-, h⟩
      exact h
  | cons c t ih =>
    simp only [strContains, Bool.or_eq_true, List.isPrefixOf_iff_prefix, ih]
    constructor
    · rintro (⟨q, hq⟩ | ⟨p, q, rfl⟩)
      · exact ⟨[], q, hq.symm⟩
      · exact ⟨c :: p, q, rfl⟩
    · rintro ⟨p, q, hpq⟩
      match p, hpq with
      | [], hpq => exact Or.inl ⟨q, by simpa using hpq.symm⟩
      | c' :: p', hpq =>
        exact Or.inr ⟨p', q, by simpa using (by simpa using hpq : _ ∧ _).2⟩

/-! ### C1: the filter retains exactly the titles containing a keyword -/

/-- C1: for every keyword set `K` and title `T`, the filter predicate holds
iff some keyword of `K` occurs as a substring of the lowercased title; in
particular the empty keyword set retains nothing. -/
theorem retained_iff_keyword_substring (K : List Str) (T : Str) :
    (titleMatches K T = true ↔
      ∃ k, k ∈ K ∧ ∃ p q, pyLower T = p ++ k ++ q) ∧
    titleMatches [] T = false := by
  constructor
  · simp only [titleMatches, List.any_eq_true, strContains_iff]
  · rfl

/-! ### C6: parsing always skips the first raw feed entry -/

/-- C6: the fetch stage unconditionally skips index 0 of a successfully
parsed raw sequence, whatever that first entry holds, and a raw sequence
with fewer than two elements yields no postings at all. -/
theorem fetch_skips_first_entry :
    (∀ (K : List Str) (j : RawJob) (rest : List RawJob),
        fetch_jobs K (.ok (j :: rest)) = filterJobs K rest) ∧
    (∀ (K : List Str) (jobs : List RawJob), jobs.length ≤ 1 →
        fetch_jobs K (.ok jobs) = []) := by
  constructor
  · intro K j rest; rfl
  · intro K jobs h
    match jobs with
    | [] => rfl
    | [j] => rfl
    | a :: b :: t => simp at h

/-- Witness for C6 at a concrete one-element feed: the hypothesis
`length ≤ 1` holds and the fetch yields no postings. -/
theorem fetch_skips_first_entry_witness :
    [({ position := some (("junior dev").data) } : RawJob)].length ≤ 1 ∧
    fetch_jobs [("junior").data]
      (.ok [{ position := some (("junior dev").data) }]) = [] :=
  ⟨by decide, fetch_skips_first_entry.2 _ _ (by decide)⟩

/-! ### C7: the empty-result body is the fixed sentence -/

/-- C7: when the filtered posting list is empty, the composed email body is
exactly the sentence `No matching jobs found today.` and in particular is
not the empty string. -/
theorem empty_filter_body :
    emailBody [] = ("No matching jobs found today.").data ∧
    emailBody [] ≠ [] := ⟨rfl, by decide⟩

/-! ### C8: the worked example from the spec -/

/-- The raw feed record of the spec example. -/
def rawC8 : RawJob :=
  { position := some (("Junior Data Engineer").data)
    company := some (("Acme").data)
    url := some (("http://x").data) }

/-- C8: with keyword set `{"data engineer"}`, the example record (behind one
skipped leading metadata entry) is retained by the filter, and its block in
the email body renders as the literal three-line block. -/
theorem sample_record_retained_and_rendered :
    fetch_jobs [("data engineer").data] (.ok [{}, rawC8]) =
      [normalizeJob rawC8] ∧
    formatJob (normalizeJob rawC8) =
      ("Junior Data Engineer at Acme\nApply: http://x\n").data := by
  constructor
  · rfl
  · rfl

/-! ### Concrete configurations and worlds for witnesses -/

/-- A configuration with both secrets present. -/
def cfgBoth : Config :=
  { senderEmail := some (("me@example.com").data)
    senderPassword := some (("hunter2").data)
    targetHour := 12
    keywords := [("data engineer").data] }

/-- A configuration whose sender credential is absent. -/
def cfgNoPass : Config := { cfgBoth with senderPassword := none }

/-- A configuration whose target hour is out of range. -/
def cfgHour24 : Config := { cfgBoth with targetHour := 24 }

/-- A world at local hour 12 whose fetch fails. -/
def wNoon : World := { localHour := 12, fetch := .fetchError, smtpOk := true }

/-- A world at local hour 13 (one past the target of `cfgBoth`). -/
def wOne : World := { localHour := 13, fetch := .fetchError, smtpOk := true }

/-! ### C2: a caught fetch failure degrades to the no-match email -/

/-- C2: when both secrets are present and the time gate matches, a fetch
failure (network error, non-success status, or parse failure — all collapsed
into `FetchOutcome.fetchError`, the cases caught by the `try` in
`fetch_jobs`) yields the empty posting list, execution continues to the
notify stage composing the `No matching jobs found today.` body, the SMTP
send is still attempted, and the process exits 0. -/
theorem fetch_failure_yields_empty_and_email (cfg : Config) (w : World)
    (he : pyTruthy cfg.senderEmail = true)
    (hp : pyTruthy cfg.senderPassword = true)
    (hg : is_target_time cfg w = true) (hf : w.fetch = .fetchError) :
    fetch_jobs cfg.keywords w.fetch = [] ∧
    main cfg w = { exitCode := 0, httpAttempted := true, smtpAttempted := true,
                   body := some noMatchBody, delivered := w.smtpOk } := by
  refine ⟨by rw [hf]; rfl, ?_⟩
  simp [main, he, hp, hg, hf, fetch_jobs, emailBody]

/-- Witness for C2 at the concrete configuration `cfgBoth` and world
`wNoon`. -/
theorem fetch_failure_yields_empty_and_email_witness :
    (pyTruthy cfgBoth.senderEmail = true ∧
     pyTruthy cfgBoth.senderPassword = true ∧
     is_target_time cfgBoth wNoon = true ∧ wNoon.fetch = .fetchError) ∧
    (fetch_jobs cfgBoth.keywords wNoon.fetch = [] ∧
     main cfgBoth wNoon =
       { exitCode := 0, httpAttempted := true, smtpAttempted := true,
         body := some noMatchBody, delivered := true }) :=
  ⟨⟨by decide, by decide, by decide, rfl⟩,
   fetch_failure_yields_empty_and_email cfgBoth wNoon (by decide) (by decide)
     (by decide) rfl⟩

/-! ### C3: a missing secret aborts before any network I/O -/

/-- C3: if either secret is absent (or empty, which Python treats the same
as absent), `main` exits with status 1 and neither the HTTP fetch nor the
SMTP session is ever attempted. -/
theorem missing_secret_exits_one (cfg : Config) (w : World)
    (h : pyTruthy cfg.senderEmail = false ∨
         pyTruthy cfg.senderPassword = false) :
    main cfg w = { exitCode := 1, httpAttempted := false,
                   smtpAttempted := false, body := none, delivered := false } := by
  rcases h with h | h <;> simp [main, h]

/-- Witness for C3: sender address present but credential absent. -/
theorem missing_secret_exits_one_witness :
    pyTruthy cfgNoPass.senderPassword = false ∧
    main cfgNoPass wNoon = { exitCode := 1, httpAttempted := false,
                             smtpAttempted := false, body := none,
                             delivered := false } :=
  ⟨by decide, missing_secret_exits_one cfgNoPass wNoon (Or.inr (by decide))⟩

/-! ### C4: with both secrets present, every path exits 0 -/

/-- C4: when both secrets are present, the exit code is 0 on every path —
the world `w` ranges over time-gate mismatch, fetch failure or success, and
SMTP failure or success. -/
theorem secrets_present_exit_zero (cfg : Config) (w : World)
    (he : pyTruthy cfg.senderEmail = true)
    (hp : pyTruthy cfg.senderPassword = true) :
    (main cfg w).exitCode = 0 := by
  cases hg : is_target_time cfg w <;> simp [main, he, hp, hg]

/-- Witness for C4 at `cfgBoth` and the failing-fetch world `wNoon`. -/
theorem secrets_present_exit_zero_witness :
    (pyTruthy cfgBoth.senderEmail = true ∧
     pyTruthy cfgBoth.senderPassword = true) ∧
    (main cfgBoth wNoon).exitCode = 0 :=
  ⟨⟨by decide, by decide⟩,
   secrets_present_exit_zero cfgBoth wNoon (by decide) (by decide)⟩

/-! ### C5: a time-gate mismatch performs no network call -/

/-- C5: when the secrets are present (so the run reaches the gate and the
local hour is actually computed) and the computed local hour differs from
the target hour, `main` attempts neither the HTTP fetch nor the SMTP
session, composes no email, and exits 0. -/
theorem gate_mismatch_no_network (cfg : Config) (w : World)
    (he : pyTruthy cfg.senderEmail = true)
    (hp : pyTruthy cfg.senderPassword = true)
    (hg : is_target_time cfg w = false) :
    main cfg w = { exitCode := 0, httpAttempted := false,
                   smtpAttempted := false, body := none, delivered := false } := by
  simp [main, he, hp, hg]

/-- Witness for C5: local hour 13 against target hour 12. -/
theorem gate_mismatch_no_network_witness :
    (pyTruthy cfgBoth.senderEmail = true ∧
     pyTruthy cfgBoth.senderPassword = true ∧
     is_target_time cfgBoth wOne = false) ∧
    main cfgBoth wOne = { exitCode := 0, httpAttempted := false,
                          smtpAttempted := false, body := none,
                          delivered := false } :=
  ⟨⟨by decide, by decide, by decide⟩,
   gate_mismatch_no_network cfgBoth wOne (by decide) (by decide) (by decide)⟩

/-! ### C9: an out-of-range target hour never matches -/

/-- C9: the local hour-of-day is always in `0‥23`, so a configured target
hour below 0 or above 23 makes `is_target_time` false at every instant; no
validation of the target hour happens anywhere. -/
theorem out_of_range_target_never_matches (cfg : Config) (w : World)
    (h : cfg.targetHour < 0 ∨ 23 < cfg.targetHour) :
    is_target_time cfg w = false := by
  have hlt : (w.localHour : Nat) < 24 := w.localHour.isLt
  simp only [is_target_time, beq_eq_false_iff_ne, ne_eq]
  intro he
  rcases h with h | h <;> omega

/-- Witness for C9 at target hour 24. -/
theorem out_of_range_target_never_matches_witness :
    (cfgHour24.targetHour < 0 ∨ 23 < cfgHour24.targetHour) ∧
    is_target_time cfgHour24 wNoon = false :=
  ⟨Or.inr (by decide),
   out_of_range_target_never_matches cfgHour24 wNoon (Or.inr (by decide))⟩

/-! ### C10: parsed keywords are trimmed and non-empty -/

/-- Helper: the head of `dropWhile p` never satisfies `p`. -/
theorem head?_dropWhile_not (p : Char → Bool) (l : Str) (c : Char)
    (h : (l.dropWhile p).head? = some c) : p c = false := by
  induction l with
  | nil => simp at h
  | cons a t ih =>
    rw [List.dropWhile_cons] at h
    by_cases hp : p a = true
    · rw [if_pos hp] at h
      exact ih h
    · rw [if_neg hp] at h
      rw [List.head?_cons, Option.some.injEq] at h
      subst h
      simpa using hp

/-- Helper: when `dropWhile p` is non-empty it keeps the last element. -/
theorem getLast?_dropWhile_ne_nil (p : Char → Bool) (l : Str)
    (h : l.dropWhile p ≠ []) : (l.dropWhile p).getLast? = l.getLast? := by
  induction l with
  | nil => simp at h
  | cons a t ih =>
    rw [List.dropWhile_cons] at h ⊢
    by_cases hp : p a = true
    · rw [if_pos hp] at h ⊢
      have ht : t ≠ [] := by
        intro he
        rw [he] at h
        simp at h
      rw [ih h]
      obtain ⟨b, t', rfl⟩ := List.exists_cons_of_ne_nil ht
      rw [List.getLast?_cons_cons]
    · rw [if_neg hp]

/-- Helper: the first character of a stripped string is not whitespace. -/
theorem pyStrip_head_not_ws (s : Str) (c : Char)
    (h : (pyStrip s).head? = some c) : c.isWhitespace = false := by
  unfold pyStrip at h
  rw [List.head?_reverse] at h
  have hne :
      ((s.dropWhile Char.isWhitespace).reverse.dropWhile Char.isWhitespace)
        ≠ [] := by
    intro he
    rw [he] at h
    simp at h
  rw [getLast?_dropWhile_ne_nil _ _ hne, List.getLast?_reverse] at h
  exact head?_dropWhile_not _ _ _ h

/-- Helper: the last character of a stripped string is not whitespace. -/
theorem pyStrip_getLast_not_ws (s : Str) (c : Char)
    (h : (pyStrip s).getLast? = some c) : c.isWhitespace = false := by
  unfold pyStrip at h
  rw [List.getLast?_reverse] at h
  exact head?_dropWhile_not _ _ _ h

/-- Helper: lowercasing never turns a non-whitespace character into a
whitespace one (`toLower` only moves the 26 basic latin capitals onto the
corresponding small letters). -/
theorem toLower_ws_false (c : Char) (h : c.isWhitespace = false) :
    (Char.toLower c).isWhitespace = false := by
  rw [Char.toLower]
  by_cases hc : c.toNat ≥ 65 ∧ c.toNat ≤ 90
  · rw [if_pos hc]
    obtain ⟨h1, h2⟩ := hc
    generalize c.toNat = n at h1 h2
    interval_cases n <;> decide
  · rw [if_neg hc]
    exact h

/-- C10: every keyword produced by the load-time parsing is non-empty and
has neither a leading nor a trailing whitespace character, and consequently
a posting whose (already stripped) title is the empty string is never
retained by a filter built from such a keyword set. -/
theorem keywords_trimmed_and_nonempty (raw : Str) :
    (∀ k, k ∈ parseKeywords raw →
        k ≠ [] ∧
        (∀ c, k.head? = some c → c.isWhitespace = false) ∧
        (∀ c, k.getLast? = some c → c.isWhitespace = false)) ∧
    titleMatches (parseKeywords raw) [] = false := by
  have hk : ∀ k, k ∈ parseKeywords raw →
      k ≠ [] ∧
      (∀ c, k.head? = some c → c.isWhitespace = false) ∧
      (∀ c, k.getLast? = some c → c.isWhitespace = false) := by
    intro k hk
    unfold parseKeywords at hk
    rw [List.mem_map] at hk
    obtain ⟨x, hx, rfl⟩ := hk
    rw [List.mem_filter] at hx
    obtain ⟨-, hxs⟩ := hx
    have hne : pyStrip x ≠ [] := by
      intro he
      rw [he] at hxs
      simp at hxs
    refine ⟨?_, ?_, ?_⟩
    · simpa [pyLower] using hne
    · intro c hc
      rw [pyLower, List.head?_map, Option.map_eq_some'] at hc
      obtain ⟨c0, hc0, rfl⟩ := hc
      exact toLower_ws_false c0 (pyStrip_head_not_ws x c0 hc0)
    · intro c hc
      rw [pyLower, List.getLast?_map, Option.map_eq_some'] at hc
      obtain ⟨c0, hc0, rfl⟩ := hc
      exact toLower_ws_false c0 (pyStrip_getLast_not_ws x c0 hc0)
  refine ⟨hk, ?_⟩
  rw [titleMatches, List.any_eq_false]
  intro kw hkw hcontra
  rw [strContains_iff] at hcontra
  obtain ⟨p, q, hpq⟩ := hcontra
  have h0 : (p ++ kw) ++ q = ([] : Str) := by simpa [pyLower] using hpq.symm
  exact (hk kw hkw).1 (List.append_eq_nil.mp (List.append_eq_nil.mp h0).1).2

/-- Witness for C10 on a concrete raw keyword string with padding and an
empty entry: `data engineer` is among the parsed keywords, is non-empty,
and the empty title is not retained. -/
theorem keywords_trimmed_and_nonempty_witness :
    ("data engineer").data ∈
      parseKeywords ((" Data Engineer ,junior, , intern").data) ∧
    ("data engineer").data ≠ [] ∧
    titleMatches
      (parseKeywords ((" Data Engineer ,junior, , intern").data)) [] = false :=
  ⟨by decide,
   ((keywords_trimmed_and_nonempty
       ((" Data Engineer ,junior, , intern").data)).1 _ (by decide)).1,
   (keywords_trimmed_and_nonempty
       ((" Data Engineer ,junior, , intern").data)).2⟩
